import Mathlib

/-!
Shallow embedding of the graphics-abstraction layer of this repository and
proofs about it.  Each backend's device implementation is translated from its
source file:

  * `D3D9`   — `source/d3d9/d3d9_device.cpp` (render-pass emulation in
               `SetRenderTarget` / `SetDepthStencilSurface`)
  * `VK`     — `source/vulkan/reshade_api_device.cpp` / `.hpp` (handle
               registry, `create_resource`, `destroy_resource`,
               `map_resource`, `create_render_pass`, `get_attachment`,
               `create_query_pool`)
  * `GL`     — `source/opengl/reshade_api_device.cpp` (`create_render_pass`,
               descriptor-set emulation, `create_query_pool`,
               `get_attachment`, `get_attachment_count`)

Native backend calls (Vulkan driver entry points, GL commands, the D3D9
runtime) are modelled as oracles: booleans or functions supplied as arguments
that stand for the success/failure and results of those calls.  Machine
integers are modelled as `Nat`; the handle bit-packing done by the OpenGL
backend is reproduced with `<<<`/`|||`/`&&&` on `Nat`.
-/

namespace D3D9

/-- Add-on events invoked by the render-pass emulation in
`Direct3DDevice9::SetRenderTarget` / `SetDepthStencilSurface`. -/
inductive Event where
  | finishRenderPass
  | beginRenderPass
  | bindViewports
  deriving DecidableEq, Repr

/-- The render-pass tracking state `_current_pass` points to.  Its struct
definition is not part of the shown sources; the fields are exactly the ones
the shown code reads and writes: the array of bound color render targets
(indexed by `RenderTargetIndex`) and the bound depth-stencil surface.
Surfaces are `IDirect3DSurface9 *` pointers, modelled as `Option Nat`
(`none` = null pointer). -/
structure PassState where
  rtv : List (Option Nat)
  dsv : Option Nat
  deriving DecidableEq, Repr

/-- `Direct3DDevice9::SetRenderTarget` (d3d9_device.cpp).  `hrOk` is the
result of the forwarded native `_orig->SetRenderTarget` call; the add-on
block only runs when it succeeded.  Returns the new state and the list of
events emitted, in order. -/
def SetRenderTarget (idx : Nat) (target : Option Nat) (hrOk : Bool)
    (s : PassState) : PassState × List Event :=
  if hrOk then
    let ev1 : List Event :=
      if (s.rtv.getD idx none).isSome ∧ idx = 0 then [Event.finishRenderPass] else []
    let s' : PassState := { s with rtv := s.rtv.set idx target }
    let ev2 : List Event :=
      if target.isSome then
        (if idx = 0 then [Event.beginRenderPass] else []) ++ [Event.bindViewports]
      else []
    (s', ev1 ++ ev2)
  else (s, [])

/-- `Direct3DDevice9::SetDepthStencilSurface` (d3d9_device.cpp).  Compares
the new surface against `_current_pass->dsv` and only on an actual change
emits `finish_render_pass`, updates the state and emits
`begin_render_pass`. -/
def SetDepthStencilSurface (z : Option Nat) (hrOk : Bool)
    (s : PassState) : PassState × List Event :=
  if hrOk ∧ z ≠ s.dsv then
    ({ s with dsv := z }, [Event.finishRenderPass, Event.beginRenderPass])
  else (s, [])

end D3D9

namespace VK

/-- Record stored in the Vulkan handle registry `_resources`
(`resource_data` in reshade_api_device.hpp): whether the entry is an image
or a buffer, the VMA allocation backing it (`none` = `VK_NULL_HANDLE`), and
the ownership flag. -/
structure ResourceData where
  isImage : Bool
  allocation : Option Nat
  owned : Bool
  deriving DecidableEq, Repr

/-- The `_resources` map of `device_impl`: native handle to record. -/
abbrev Registry := List (Nat × ResourceData)

/-- Lookup in the `_resources` map (`std::map::find` semantics). -/
def lookupOpt (m : Registry) (h : Nat) : Option ResourceData :=
  (m.find? (fun e => e.1 == h)).map (·.2)

/-- Vulkan `device_impl::is_resource_handle_valid`: zero handles are invalid,
otherwise the handle must currently be in the `_resources` map. -/
def is_resource_handle_valid (m : Registry) (h : Nat) : Bool :=
  if h = 0 then false else (lookupOpt m h).isSome

/-- Vulkan `device_impl::lookup_resource`, which calls `_resources.at(handle)`.
A `none` result corresponds to the `std::out_of_range` exception `at` raises
when the handle is not registered. -/
def lookup_resource (m : Registry) (h : Nat) : Option ResourceData :=
  lookupOpt m h

/-- The shared `_resources.emplace` step of `register_image` /
`register_buffer` (reshade_api_device.hpp): `std::map::emplace` inserts only
when the key is absent. -/
def emplaceRes (m : Registry) (h : Nat) (d : ResourceData) : Registry :=
  if (lookupOpt m h).isSome then m else (h, d) :: m

/-- The `_resources.erase(handle.handle)` step of `destroy_resource`. -/
def eraseRes (m : Registry) (h : Nat) : Registry :=
  m.eraseP (fun e => e.1 == h)

/-- Vulkan `device_impl::destroy_resource`: a zero handle returns early;
otherwise `lookup_resource` is performed (a `none` result models the
`std::map::at` exception on an unregistered handle, i.e. a crash), the
native object is freed through `vk*Destroy`/`vmaDestroy*` (no registry
effect) and the entry is erased.  The debug-only `assert(data.owned)` has no
release-build effect and is not modelled. -/
def destroy_resource (m : Registry) (h : Nat) : Option Registry :=
  if h = 0 then some m
  else
    match lookup_resource m h with
    | none => none
    | some _ => some (eraseRes m h)

/-- Internal steps of `device_impl::upload_texture_region`: creating the
intermediate host-visible buffer can fail (logged, early return), mapping it
can fail (copy skipped), otherwise the staged copy is issued and waited on.
The function reads the registry via `lookup_resource` but never writes it —
made explicit here by not passing the registry at all. -/
inductive UploadStep where
  | createIntermediateFailed
  | mapFailed
  | copied
  deriving DecidableEq, Repr

/-- Outcome of one `upload_texture_region` call given the success of its two
fallible native steps (`vmaCreateBuffer`, `vmaMapMemory`). -/
def upload_texture_region (bufOk mapOk : Bool) : UploadStep :=
  if ¬bufOk then UploadStep.createIntermediateFailed
  else if ¬mapOk then UploadStep.mapFailed
  else UploadStep.copied

/-- Operations performed by `create_resource` after native allocation, in
order: registry registration, layout-transition barriers, per-subresource
initial-data uploads, and the immediate-command-list flush. -/
inductive Op where
  | register (h : Nat)
  | barrier (h : Nat)
  | uploadTexRegion (h sub : Nat) (step : UploadStep)
  | flushQueue
  deriving DecidableEq, Repr

/-- Inputs of the texture path of Vulkan `device_impl::create_resource`:
the native `vkCreateImage`/`vmaCreateImage` outcome and returned handle, the
allocation (`none` when `desc.heap == unknown`), whether initial data was
passed, the subresource count (`depth_or_layers * levels`), whether the
requested initial state is not `undefined`, and whether some queue exposes
an immediate command list. -/
structure CreateTexInput where
  allocOk : Bool
  handle : Nat
  allocation : Option Nat
  hasInitialData : Bool
  numSubresources : Nat
  initialStateDefined : Bool
  hasImmediateList : Bool
  deriving Repr

/-- Result of `create_resource`: the boolean return value, the value written
to `*out`, the registry afterwards and the trace of operations performed. -/
structure CreateTexResult where
  success : Bool
  outHandle : Nat
  registry : Registry
  ops : List Op
  deriving Repr

/-- Texture path of Vulkan `device_impl::create_resource`
(reshade_api_device.cpp): on native allocation failure it returns false with
the zero sentinel; on success it registers the image first, then (when the
initial state is defined and an immediate command list exists) issues a
barrier, uploads each subresource's initial data, issues the finalize
barrier and flushes — and returns true with the handle regardless of the
upload outcomes.  `bufOk`/`mapOk` give each subresource upload's native
outcomes. -/
def create_resource (bufOk mapOk : Nat → Bool) (inp : CreateTexInput)
    (m : Registry) : CreateTexResult :=
  if inp.allocOk then
    let m' := emplaceRes m inp.handle ⟨true, inp.allocation, true⟩
    let uploads : List Op :=
      (List.range inp.numSubresources).map fun sub =>
        Op.uploadTexRegion inp.handle sub (upload_texture_region (bufOk sub) (mapOk sub))
    let ops : List Op :=
      Op.register inp.handle ::
        (if inp.initialStateDefined then
          (if inp.hasImmediateList then
            (if inp.hasInitialData then
              Op.barrier inp.handle :: (uploads ++ [Op.barrier inp.handle, Op.flushQueue])
            else [Op.barrier inp.handle, Op.flushQueue])
          else [])
        else [])
    ⟨true, inp.handle, m', ops⟩
  else ⟨false, 0, m, []⟩

/-- Result of Vulkan `device_impl::map_resource`: return value, pointer
written to `*data` (`none` = null or left unwritten), and the two pitch
outputs (always zeroed first). -/
structure MapResult where
  success : Bool
  data : Option Nat
  rowPitch : Nat
  slicePitch : Nat
  deriving DecidableEq, Repr

/-- Vulkan `device_impl::map_resource`: zeroes the pitches, looks the
resource up (`none` result models the `std::map::at` exception on an
unregistered handle), and if the resource has a VMA allocation maps it via
`vmaMapMemory` (`vmaMapOk`/`mappedPtr`; on mapping failure the output
pointer is left unwritten, modelled as `none`).  A resource with no host
allocation takes the other branch: the output pointer is set to null and
false is returned, with no assertion on that path. -/
def map_resource (vmaMapOk : Bool) (mappedPtr : Nat) (m : Registry)
    (h : Nat) : Option MapResult :=
  match lookup_resource m h with
  | none => none
  | some d =>
    match d.allocation with
    | some _ => some ⟨vmaMapOk, if vmaMapOk then some mappedPtr else none, 0, 0⟩
    | none => some ⟨false, none, 0, 0⟩

/-- Per-attachment record stored in the `_render_pass_list` side table
(`render_pass_data::attachment`): initial layout, clear flags and the aspect
flags derived from the attachment format.  Layout constants follow Vulkan
(`VK_IMAGE_LAYOUT_COLOR_ATTACHMENT_OPTIMAL` = 2,
`VK_IMAGE_LAYOUT_DEPTH_STENCIL_ATTACHMENT_OPTIMAL` = 3). -/
structure RPAttachment where
  initialLayout : Nat
  clearFlags : Nat
  formatFlags : Nat
  deriving DecidableEq, Repr

/-- Per-attachment data stored in the `_framebuffer_list` side table
(`framebuffer_data`): the resource-view handle and its aspect type.  The
source keeps these in two parallel vectors pushed in lockstep; they are one
list of records here. -/
structure FBAttachment where
  view : Nat
  aspectType : Nat
  deriving DecidableEq, Repr

/-- The attachment lists `create_render_pass` builds from a
`render_pass_desc`: color attachments are the leading non-zero entries of
the first eight `render_targets` slots (each recorded with aspect type
`VK_IMAGE_ASPECT_COLOR_BIT` = 1 in the framebuffer table and the aspect
flags of its format in the render-pass table), followed by the depth-stencil
attachment when its handle is non-zero.  `aspectOf` stands for
`aspect_flags_from_format` composed with `convert_format`. -/
def vkDescAttachments (aspectOf : Nat → Nat) (rts : List (Nat × Nat))
    (ds dsFmt : Nat) : List RPAttachment × List FBAttachment :=
  let colors := (rts.take 8).takeWhile (fun p => p.1 != 0)
  let passColors := colors.map (fun p => (⟨2, 0, aspectOf p.2⟩ : RPAttachment))
  let fbColors := colors.map (fun p => (⟨p.1, 1⟩ : FBAttachment))
  if ds ≠ 0 then
    (passColors ++ [⟨3, 0, aspectOf dsFmt⟩], fbColors ++ [⟨ds, aspectOf dsFmt⟩])
  else (passColors, fbColors)

/-- The render-pass related device state: the two side tables keyed by the
native render-pass and framebuffer objects, plus the sets of currently
existing native objects (tracking `vkCreateRenderPass`/`vkDestroyRenderPass`
and `vkCreateFramebuffer`/`vkDestroyFramebuffer`). -/
structure RPState where
  renderPassList : List (Nat × List RPAttachment)
  framebufferList : List (Nat × List FBAttachment)
  alivePasses : List Nat
  aliveFbos : List Nat
  deriving DecidableEq, Repr

/-- Vulkan `device_impl::create_render_pass`: builds the attachment lists,
creates the native render pass (`passOk`; failure returns false/zero with
nothing allocated), then the native framebuffer (`fboOk`; on failure the
just-created render pass is destroyed before returning false/zero), and on
full success registers both side-table entries under the device lock and
returns the heap-allocated `render_pass_impl` pointer `ptr`. -/
def vk_create_render_pass (passOk fboOk : Bool) (passId fboId ptr : Nat)
    (aspectOf : Nat → Nat) (rts : List (Nat × Nat)) (ds dsFmt : Nat)
    (st : RPState) : (Bool × Nat) × RPState :=
  let atts := vkDescAttachments aspectOf rts ds dsFmt
  if passOk then
    let st1 := { st with alivePasses := passId :: st.alivePasses }
    if fboOk then
      ((true, ptr),
       { st1 with
          aliveFbos := fboId :: st1.aliveFbos
          renderPassList := (passId, atts.1) :: st1.renderPassList
          framebufferList := (fboId, atts.2) :: st1.framebufferList })
    else ((false, 0), { st1 with alivePasses := st1.alivePasses.erase passId })
  else ((false, 0), st)

/-- Vulkan `device_impl::get_attachment` on the side-table data of one pass:
walks the render-pass attachment records, counting down `index` over the
records whose `format_flags` intersect the requested type bitmask, and
returns the framebuffer table's view at the matching position; when the
index runs past the matches it returns false with the zero view.  The
mismatched-length case is an out-of-bounds read in the source, unreachable
for passes built by `create_render_pass`.  The debug
`assert(index <= size)` is not modelled. -/
def vk_get_attachment : List RPAttachment → List FBAttachment → Nat → Nat → Bool × Nat
  | [], _, _, _ => (false, 0)
  | _ :: _, [], _, _ => (false, 0)
  | p :: ps, f :: fs, ty, idx =>
    if p.formatFlags &&& ty != 0 then
      if idx = 0 then (true, f.view) else vk_get_attachment ps fs ty (idx - 1)
    else vk_get_attachment ps fs ty idx

/-- Vulkan `device_impl::get_attachment_count` on one pass's render-pass
table entry: the number of attachment records whose `format_flags`
intersect the requested type bitmask. -/
def vk_get_attachment_count (ps : List RPAttachment) (ty : Nat) : Nat :=
  (ps.filter (fun p => p.formatFlags &&& ty != 0)).length

/-- Commands `create_query_pool` records on the immediate command list. -/
inductive QueryOp where
  | cmdResetQueryPool (pool first count : Nat)
  | flush
  deriving DecidableEq, Repr

/-- Vulkan `device_impl::create_query_pool`: on native `vkCreateQueryPool`
failure returns false/zero (`none`); on success it walks the queues and, at
the first one exposing an immediate command list, records a
`vkCmdResetQueryPool` over the whole range `[0, count)` and flushes, then
returns the pool handle.  `queuesImm` lists, per queue, whether it has an
immediate command list. -/
def vk_create_query_pool (createOk : Bool) (poolId : Nat)
    (queuesImm : List Bool) (count : Nat) : Option (Nat × List QueryOp) :=
  if createOk then
    some (poolId,
      if queuesImm.any id then [QueryOp.cmdResetQueryPool poolId 0 count, QueryOp.flush]
      else [])
  else none

end VK

namespace OpenGL

def GL_TEXTURE : Nat := 0x1702
def GL_TEXTURE_BUFFER : Nat := 0x8C2A
def GL_TEXTURE_1D : Nat := 0x0DE0
def GL_TEXTURE_1D_ARRAY : Nat := 0x8C18
def GL_TEXTURE_2D : Nat := 0x0DE1
def GL_TEXTURE_2D_ARRAY : Nat := 0x8C1A
def GL_TEXTURE_2D_MULTISAMPLE : Nat := 0x9100
def GL_TEXTURE_2D_MULTISAMPLE_ARRAY : Nat := 0x9102
def GL_TEXTURE_RECTANGLE : Nat := 0x84F5
def GL_RENDERBUFFER : Nat := 0x8D41
def GL_FRAMEBUFFER_DEFAULT : Nat := 0x8218
def GL_BACK : Nat := 0x0405
def GL_COLOR_ATTACHMENT0 : Nat := 0x8CE0
def GL_DEPTH_ATTACHMENT : Nat := 0x8D00
def GL_STENCIL_ATTACHMENT : Nat := 0x8D20
def GL_DEPTH_STENCIL_ATTACHMENT : Nat := 0x821A
def GL_NONE : Nat := 0

/-- Modelled from the spec: the helper `make_render_pass_handle` is declared
outside the shown sources.  Its observable layout is fixed by its callers in
reshade_api_device.cpp — the low 32 bits hold the framebuffer name
(`destroy_render_pass`, `get_attachment`), the bits from 40 up hold the
color attachment count (`get_attachment_count`), and the flag bits sit in
between — and by the data-model note that the render pass referring to the
default back buffer is "the literal value zero". -/
def make_render_pass_handle (fbo count flags : Nat) : Nat :=
  (count <<< 40) ||| (flags <<< 32) ||| fbo

/-- Modelled from the spec: the helper `make_resource_view_handle` is
declared outside the shown sources.  Its observable layout is fixed by its
callers — the low 32 bits hold the object name, the bits from 40 up the
target enumeration (`create_render_pass` switches on `handle >> 40`), and
flags occupy the bits in between (`destroy_resource_view` tests bit 32,
`create_render_pass` tests bit 33, `get_resource_from_view` masks bits
32-39 away). -/
def make_resource_view_handle (target obj flags : Nat) : Nat :=
  (target <<< 40) ||| (flags <<< 32) ||| obj

/-- Tag bits of a packed OpenGL handle (`handle >> 40`). -/
def glTag (h : Nat) : Nat := h >>> 40

/-- Targets accepted by the attachment switches in
`device_impl::create_render_pass`; anything else hits the `assert(false)`
failure path. -/
def validAttachTarget (t : Nat) : Bool :=
  t == GL_TEXTURE || t == GL_TEXTURE_BUFFER || t == GL_TEXTURE_1D ||
  t == GL_TEXTURE_1D_ARRAY || t == GL_TEXTURE_2D || t == GL_TEXTURE_2D_ARRAY ||
  t == GL_TEXTURE_2D_MULTISAMPLE || t == GL_TEXTURE_2D_MULTISAMPLE_ARRAY ||
  t == GL_TEXTURE_RECTANGLE || t == GL_RENDERBUFFER

/-- Condition of the early default-framebuffer branch of
`device_impl::create_render_pass`: the first render target is a
default-framebuffer view and the depth-stencil is absent or also a
default-framebuffer view. -/
def defaultFramebufferDesc (rts : List Nat) (ds : Nat) : Bool :=
  glTag (rts.getD 0 0) == GL_FRAMEBUFFER_DEFAULT &&
    (ds == 0 || glTag ds == GL_FRAMEBUFFER_DEFAULT)

/-- Native framebuffer objects currently existing
(`glGenFramebuffers`/`glDeleteFramebuffers`). -/
structure GLState where
  aliveFbos : List Nat
  deriving DecidableEq, Repr

/-- OpenGL `device_impl::create_render_pass`: the default-framebuffer case
returns early with `make_render_pass_handle(0)`.  Otherwise a framebuffer
object `fboName` is generated and bound, each leading non-zero render
target and the depth-stencil attachment are attached (an unrecognized
target tag deletes the framebuffer and fails), completeness is validated
via `glCheckFramebufferStatus` (`complete`), and on success the packed
handle carrying the framebuffer name, color attachment count and sRGB flag
is returned; an incomplete framebuffer is deleted before failing.  The
save/restore of the application's `GL_FRAMEBUFFER_BINDING` is pure native
binding state and not modelled. -/
def gl_create_render_pass (complete : Bool) (fboName : Nat)
    (rts : List Nat) (ds : Nat) (st : GLState) : (Bool × Nat) × GLState :=
  if defaultFramebufferDesc rts ds then
    ((true, make_render_pass_handle 0 0 0), st)
  else
    let st1 := { st with aliveFbos := fboName :: st.aliveFbos }
    let colors := (rts.take 8).takeWhile (fun h => h != 0)
    if colors.all (fun h => validAttachTarget (glTag h)) &&
        (ds == 0 || validAttachTarget (glTag ds)) then
      if complete then
        let flags := if colors.any (fun h => h &&& 0x200000000 != 0) then 2 else 0
        ((true, make_render_pass_handle fboName colors.length flags), st1)
      else ((false, 0), { st1 with aliveFbos := st1.aliveFbos.erase fboName })
    else ((false, 0), { st1 with aliveFbos := st1.aliveFbos.erase fboName })

/-- Descriptor types of the abstraction (`api::descriptor_type`). -/
inductive DescType where
  | sampler
  | samplerWithResourceView
  | shaderResourceView
  | unorderedAccessView
  | constantBuffer
  deriving DecidableEq, Repr

/-- Emulated descriptor set (`descriptor_set_impl`): the single range's
type and the flat array of handles. -/
structure DescriptorSetImpl where
  type : DescType
  descriptors : List Nat
  deriving DecidableEq, Repr

/-- Read of the flat descriptor array (`descriptors[i]`); the default is
irrelevant under the in-bounds hypotheses carried by the theorems. -/
def getAt (l : List Nat) (i : Nat) : Nat := l.getD i 0

/-- Write to the flat descriptor array (`descriptors[i] = v`); an
out-of-bounds write is undefined behavior in the source and a no-op here,
which the in-bounds hypotheses rule out. -/
def setAt (l : List Nat) (i v : Nat) : List Nat := l.set i v

/-- Loop body of OpenGL `device_impl::create_descriptor_sets`: a fresh
heap-allocated set whose array is sized by the layout range's count
(doubled for sampler-with-resource-view sets) and zero-initialized by
`std::vector::resize`. -/
def createDescriptorSet (rangeType : DescType) (rangeCount : Nat) : DescriptorSetImpl :=
  ⟨rangeType,
    List.replicate
      (rangeCount * (if rangeType = DescType.samplerWithResourceView then 2 else 1)) 0⟩

/-- OpenGL `device_impl::create_descriptor_sets`: allocates `count` fresh
sets from the layout's single range and always succeeds. -/
def create_descriptor_sets (rangeType : DescType) (rangeCount count : Nat) :
    List DescriptorSetImpl :=
  (List.range count).map (fun _ => createDescriptorSet rangeType rangeCount)

/-- The heap of emulated descriptor sets, as a map from set handle to the
pointed-to `descriptor_set_impl`. -/
def Store : Type := Nat → DescriptorSetImpl

/-- Overwrite the set object a handle points to. -/
def storeSet (st : Store) (h : Nat) (s : DescriptorSetImpl) : Store :=
  fun h' => if h' = h then s else st h'

/-- One entry of the `writes` array of `update_descriptor_sets`
(`api::descriptor_set_write`); the three descriptor payload slots mirror
the union members read per type. -/
structure DescWrite where
  set : Nat
  binding : Nat
  type : DescType
  sampler : Nat
  view : Nat
  resource : Nat
  deriving DecidableEq, Repr

/-- One entry of the `copies` array of `update_descriptor_sets`
(`api::descriptor_set_copy`). -/
structure DescCopy where
  srcSet : Nat
  srcBinding : Nat
  dstSet : Nat
  dstBinding : Nat
  count : Nat
  type : DescType
  deriving DecidableEq, Repr

/-- Write branch of OpenGL `device_impl::update_descriptor_sets`: a direct
array write at the binding (two slots for sampler-with-resource-view).
The debug-only assertions on non-zero handles and zero offset are not
modelled. -/
def applyWrite (st : Store) (w : DescWrite) : Store :=
  let s := st w.set
  let d :=
    match w.type with
    | DescType.sampler => setAt s.descriptors w.binding w.sampler
    | DescType.samplerWithResourceView =>
        setAt (setAt s.descriptors (w.binding * 2) w.sampler) (w.binding * 2 + 1) w.view
    | DescType.shaderResourceView => setAt s.descriptors w.binding w.view
    | DescType.unorderedAccessView => setAt s.descriptors w.binding w.view
    | DescType.constantBuffer => setAt s.descriptors w.binding w.resource
  storeSet st w.set { s with descriptors := d }

/-- Iteration `k` of the single-slot copy loop:
`dst[dst_binding + k] = src[src_binding + k]`. -/
def copyStepSingle (st : Store) (c : DescCopy) (k : Nat) : Store :=
  let v := getAt (st c.srcSet).descriptors (c.srcBinding + k)
  let s := st c.dstSet
  storeSet st c.dstSet { s with descriptors := setAt s.descriptors (c.dstBinding + k) v }

/-- Iteration `k` of the sampler-with-resource-view copy loop: the sampler
slot then the view slot, as two sequential read-write statements. -/
def copyStepPair (st : Store) (c : DescCopy) (k : Nat) : Store :=
  let st1 :=
    let v0 := getAt (st c.srcSet).descriptors ((c.srcBinding + k) * 2)
    let s := st c.dstSet
    storeSet st c.dstSet
      { s with descriptors := setAt s.descriptors ((c.dstBinding + k) * 2) v0 }
  let v1 := getAt (st1 c.srcSet).descriptors ((c.srcBinding + k) * 2 + 1)
  let s1 := st1 c.dstSet
  storeSet st1 c.dstSet
    { s1 with descriptors := setAt s1.descriptors ((c.dstBinding + k) * 2 + 1) v1 }

/-- The `for (uint32_t k = 0; k < count; ++k)` loop, iterations applied in
increasing order of `k`. -/
def copyLoop (step : Store → DescCopy → Nat → Store) (st : Store) (c : DescCopy) :
    Nat → Store
  | 0 => st
  | n + 1 => step (copyLoop step st c n) c n

/-- Copy branch of OpenGL `device_impl::update_descriptor_sets`: the
per-type loop over `count` bindings. -/
def applyCopy (st : Store) (c : DescCopy) : Store :=
  match c.type with
  | DescType.samplerWithResourceView => copyLoop copyStepPair st c c.count
  | _ => copyLoop copyStepSingle st c c.count

/-- OpenGL `device_impl::update_descriptor_sets`: all writes applied in
order, then all copies in order. -/
def update_descriptor_sets (writes : List DescWrite) (copies : List DescCopy)
    (st : Store) : Store :=
  copies.foldl applyCopy (writes.foldl applyWrite st)

/-- The descriptor values an emulated set stores for one binding: the
sampler/view slot pair for sampler-with-resource-view sets, a single slot
otherwise. -/
def slotsOf (ty : DescType) (l : List Nat) (i : Nat) : List Nat :=
  if ty = DescType.samplerWithResourceView then [getAt l (i * 2), getAt l (i * 2 + 1)]
  else [getAt l i]

/-- Number of array slots backing the first `n` bindings of a set of the
given type. -/
def slotSpan (ty : DescType) (n : Nat) : Nat :=
  if ty = DescType.samplerWithResourceView then 2 * n else n

/-- Query initialization issued per query by OpenGL
`device_impl::create_query_pool`. -/
inductive QueryInit where
  | timestamped
  | begunEnded
  deriving DecidableEq, Repr

/-- Query types of the abstraction (`api::query_type`), as used by
`create_query_pool`. -/
inductive QueryType where
  | occlusion
  | binaryOcclusion
  | timestamp
  | pipelineStatistics
  deriving DecidableEq, Repr

/-- OpenGL `device_impl::create_query_pool`: pipeline-statistics pools are
rejected (`none` = false with the zero sentinel); otherwise `size` query
objects are generated and each is created-and-initialized before the pool
is returned — a `glQueryCounter` for timestamp pools, a
`glBeginQuery`/`glEndQuery` pair otherwise. -/
def gl_create_query_pool (ty : QueryType) (size : Nat) : Option (List QueryInit) :=
  if ty = QueryType.pipelineStatistics then none
  else
    some ((List.range size).map fun _ =>
      if ty = QueryType.timestamp then QueryInit.timestamped else QueryInit.begunEnded)

/-- Native framebuffer-introspection state consulted by OpenGL
`device_impl::get_attachment` through `get_fbo_attachment_param` and
`get_tex_param`: per framebuffer and attachment enum, the attached object's
type (`GL_NONE` when nothing is attached) and name; the texture target of a
texture object; and the device's `_default_depth_format`. -/
structure GLEnv where
  attachmentObjectType : Nat → Nat → Nat
  attachmentObjectName : Nat → Nat → Nat
  texTarget : Nat → Nat → Nat
  defaultDepthFormat : Nat

/-- OpenGL `device_impl::get_attachment`.  A zero framebuffer name refers to
the default framebuffer: color yields the back-buffer view and any other
type yields the combined depth-stencil view only when the device recorded a
default depth format, else false/zero.  For a framebuffer object the type
selects the attachment enum (color also bounds-checks the index against the
color count packed in the handle; a type that is not color, depth, stencil
or depth|stencil fails), and the framebuffer introspection either produces
the attached object (true, packed view handle) or reports no attachment
(false, zero view).  The debug `assert(pass.handle != 0)` is not
modelled. -/
def gl_get_attachment (env : GLEnv) (pass ty index : Nat) : Bool × Nat :=
  let fbo := pass &&& 0xFFFFFFFF
  if fbo = 0 then
    if ty = 1 then (true, make_resource_view_handle GL_FRAMEBUFFER_DEFAULT GL_BACK 0)
    else if env.defaultDepthFormat ≠ GL_NONE then
      (true, make_resource_view_handle GL_FRAMEBUFFER_DEFAULT GL_DEPTH_STENCIL_ATTACHMENT 0)
    else (false, make_resource_view_handle 0 0 0)
  else
    let attach? : Option Nat :=
      if ty = 1 then
        (if index ≥ pass >>> 40 then none else some (GL_COLOR_ATTACHMENT0 + index))
      else if ty = 2 then some GL_DEPTH_ATTACHMENT
      else if ty = 4 then some GL_STENCIL_ATTACHMENT
      else if ty = 6 then some GL_DEPTH_STENCIL_ATTACHMENT
      else none
    match attach? with
    | none => (false, make_resource_view_handle 0 0 0)
    | some attachment =>
      let target := env.attachmentObjectType fbo attachment
      if target ≠ GL_NONE then
        let obj := env.attachmentObjectName fbo attachment
        let target' := if target = GL_TEXTURE then env.texTarget target obj else target
        (true, make_resource_view_handle target' obj 0)
      else (false, make_resource_view_handle 0 0 0)

/-- OpenGL `device_impl::get_attachment_count`: the color count packed into
the handle's high bits for the color type, and the constant 1 for every
other type, with no look at the underlying framebuffer. -/
def gl_get_attachment_count (pass ty : Nat) : Nat :=
  if ty = 1 then pass >>> 40 else 1

end OpenGL

/-! Claim theorems. -/

/-- C1 counterexample: with color render target 0 currently bound to a
surface, a successful `SetRenderTarget(0, same surface)` — the same
attachment rebound with no intervening bind — emits a
`finish_render_pass`/`begin_render_pass` notification pair anyway, because
`SetRenderTarget` never compares the new target against the previous one.
This refutes the claim that no second begin/end pair is emitted on a
redundant rebind. -/
theorem C1_counterexample :
    (D3D9.SetRenderTarget 0 (some 1) true ⟨[some 1, none, none, none], none⟩).2
      = [D3D9.Event.finishRenderPass, D3D9.Event.beginRenderPass, D3D9.Event.bindViewports] := by
  decide

/-- C1, amended: in the D3D9 render-pass emulation, rebinding the current
depth-stencil surface emits no notifications (only an actual change does),
but `SetRenderTarget` does not compare against the previously bound target:
a successful rebind of the same non-null surface to color slot 0 emits a
finish/begin pair (plus the viewport notification) regardless. -/
theorem C1_theorem (s : D3D9.PassState) (z : Option Nat) (t : Nat) :
    (z = s.dsv → D3D9.SetDepthStencilSurface z true s = (s, []))
    ∧ (s.rtv.getD 0 none = some t →
        (D3D9.SetRenderTarget 0 (some t) true s).2
          = [D3D9.Event.finishRenderPass, D3D9.Event.beginRenderPass, D3D9.Event.bindViewports]) := by
  constructor
  · intro hz
    simp [D3D9.SetDepthStencilSurface, hz]
  · intro h0
    simp only [List.getD, List.get?_eq_getElem?] at h0
    simp [D3D9.SetRenderTarget, List.getD, h0]

/-- C1 witness: the amended theorem evaluated on a concrete pass state. -/
theorem C1_witness :
    D3D9.SetDepthStencilSurface (some 2) true ⟨[some 1], some 2⟩ = (⟨[some 1], some 2⟩, [])
    ∧ (D3D9.SetRenderTarget 0 (some 1) true ⟨[some 1], some 2⟩).2
        = [D3D9.Event.finishRenderPass, D3D9.Event.beginRenderPass, D3D9.Event.bindViewports] :=
  ⟨(C1_theorem ⟨[some 1], some 2⟩ (some 2) 1).1 rfl,
   (C1_theorem ⟨[some 1], some 2⟩ (some 2) 1).2 rfl⟩

/-- Helper: a lookup right after consing the key finds the new record. -/
theorem lookupOpt_cons_self (m : VK.Registry) (h : Nat) (d : VK.ResourceData) :
    VK.lookupOpt ((h, d) :: m) h = some d := by
  simp [VK.lookupOpt, List.find?]

/-- Helper: registering a fresh handle conses its record onto the map. -/
theorem emplaceRes_fresh (m : VK.Registry) (h : Nat) (d : VK.ResourceData)
    (hFresh : VK.lookupOpt m h = none) :
    VK.emplaceRes m h d = (h, d) :: m := by
  simp [VK.emplaceRes, hFresh]

/-- Helper: erasing the key of the head record gives back the tail. -/
theorem eraseRes_cons_self (m : VK.Registry) (h : Nat) (d : VK.ResourceData) :
    VK.eraseRes ((h, d) :: m) h = m := by
  simp [VK.eraseRes, List.eraseP_cons]

/-- Helper: a handle is registered after `emplaceRes`, fresh or not. -/
theorem lookupOpt_emplace_isSome (m : VK.Registry) (h : Nat) (d : VK.ResourceData) :
    (VK.lookupOpt (VK.emplaceRes m h d) h).isSome = true := by
  unfold VK.emplaceRes
  cases hm : (VK.lookupOpt m h).isSome with
  | true => simp [hm]
  | false => simp [hm, lookupOpt_cons_self]

/-- C3: in Vulkan `create_resource` with initial data, when native
allocation succeeds the resource is registered (the handle is valid) before
any upload is performed — the registration is the first recorded operation —
and the outcome (success, returned handle, final registry) is the same for
every outcome of the upload steps: a failed initial-data upload does not
unregister the resource or turn the call into a failure. -/
theorem C3_theorem (bufOk mapOk bufOk' mapOk' : Nat → Bool) (inp : VK.CreateTexInput)
    (m : VK.Registry) (hAlloc : inp.allocOk = true) (hH : inp.handle ≠ 0) :
    (VK.create_resource bufOk mapOk inp m).success = true
    ∧ (VK.create_resource bufOk mapOk inp m).outHandle = inp.handle
    ∧ VK.is_resource_handle_valid (VK.create_resource bufOk mapOk inp m).registry
        inp.handle = true
    ∧ (VK.create_resource bufOk mapOk inp m).ops.head? = some (VK.Op.register inp.handle)
    ∧ (VK.create_resource bufOk' mapOk' inp m).registry
        = (VK.create_resource bufOk mapOk inp m).registry := by
  refine ⟨?_, ?_, ?_, ?_, ?_⟩ <;>
    simp [VK.create_resource, hAlloc, VK.is_resource_handle_valid, hH,
      lookupOpt_emplace_isSome]

/-- C3 witness: a concrete creation where every upload step fails
(`fun _ => false`) still yields a registered, valid, non-zero handle. -/
theorem C3_witness :
    (VK.create_resource (fun _ => false) (fun _ => false)
        ⟨true, 5, some 1, true, 2, true, true⟩ []).success = true
    ∧ (VK.create_resource (fun _ => false) (fun _ => false)
        ⟨true, 5, some 1, true, 2, true, true⟩ []).outHandle = 5
    ∧ VK.is_resource_handle_valid
        (VK.create_resource (fun _ => false) (fun _ => false)
          ⟨true, 5, some 1, true, 2, true, true⟩ []).registry 5 = true
    ∧ (VK.create_resource (fun _ => false) (fun _ => false)
        ⟨true, 5, some 1, true, 2, true, true⟩ []).ops.head? = some (VK.Op.register 5)
    ∧ (VK.create_resource (fun _ => true) (fun _ => true)
        ⟨true, 5, some 1, true, 2, true, true⟩ []).registry
        = (VK.create_resource (fun _ => false) (fun _ => false)
            ⟨true, 5, some 1, true, 2, true, true⟩ []).registry :=
  C3_theorem (fun _ => false) (fun _ => false) (fun _ => true) (fun _ => true)
    ⟨true, 5, some 1, true, 2, true, true⟩ [] rfl (by decide)

/-- C4 counterexample: create a resource with native handle 5 in an empty
registry, destroy it (the entry is removed), then call `destroy_resource`
on the same handle again: the second call's `lookup_resource` is a
`std::map::at` on an absent key, which raises — modelled by the `none`
result — so the subsequent destroy does crash, refuting the claim that it
does not. -/
theorem C4_counterexample :
    VK.destroy_resource
        (VK.create_resource (fun _ => true) (fun _ => true)
          ⟨true, 5, some 1, false, 0, false, false⟩ []).registry 5 = some []
    ∧ VK.destroy_resource ([] : VK.Registry) 5 = none := by
  constructor
  · rfl
  · rfl

/-- C4, amended: a handle returned by a successful `create_resource` is
valid; after `destroy_resource` the registry entry is removed and the handle
is invalid; but a subsequent `destroy_resource` on that same non-zero handle
performs a failing `std::map::at` lookup (a crash, modelled `none`) — only
`destroy_resource` on the zero handle is a safe no-op. -/
theorem C4_theorem (bufOk mapOk : Nat → Bool) (inp : VK.CreateTexInput)
    (m : VK.Registry) (hAlloc : inp.allocOk = true) (hH : inp.handle ≠ 0)
    (hFresh : VK.lookupOpt m inp.handle = none) :
    VK.is_resource_handle_valid (VK.create_resource bufOk mapOk inp m).registry
        inp.handle = true
    ∧ VK.destroy_resource (VK.create_resource bufOk mapOk inp m).registry
        inp.handle = some m
    ∧ VK.is_resource_handle_valid m inp.handle = false
    ∧ VK.destroy_resource m inp.handle = none
    ∧ VK.destroy_resource m 0 = some m := by
  have hreg : (VK.create_resource bufOk mapOk inp m).registry
      = (inp.handle, ⟨true, inp.allocation, true⟩) :: m := by
    simp [VK.create_resource, hAlloc, emplaceRes_fresh m inp.handle _ hFresh]
  refine ⟨?_, ?_, ?_, ?_, ?_⟩
  · simp [hreg, VK.is_resource_handle_valid, hH, lookupOpt_cons_self]
  · simp [hreg, VK.destroy_resource, VK.lookup_resource, hH, lookupOpt_cons_self,
      eraseRes_cons_self]
  · simp [VK.is_resource_handle_valid, hFresh]
  · simp [VK.destroy_resource, VK.lookup_resource, hH, hFresh]
  · simp [VK.destroy_resource]

/-- C4 witness: the amended theorem evaluated on a concrete creation in an
empty registry. -/
theorem C4_witness :
    VK.is_resource_handle_valid
        (VK.create_resource (fun _ => true) (fun _ => true)
          ⟨true, 5, some 1, false, 0, false, false⟩ []).registry 5 = true
    ∧ VK.destroy_resource
        (VK.create_resource (fun _ => true) (fun _ => true)
          ⟨true, 5, some 1, false, 0, false, false⟩ []).registry 5 = some []
    ∧ VK.is_resource_handle_valid ([] : VK.Registry) 5 = false
    ∧ VK.destroy_resource ([] : VK.Registry) 5 = none
    ∧ VK.destroy_resource ([] : VK.Registry) 0 = some [] :=
  C4_theorem (fun _ => true) (fun _ => true) ⟨true, 5, some 1, false, 0, false, false⟩
    [] rfl (by decide) rfl

/-- C9: Vulkan `map_resource` on a registered resource that has no host
allocation (`allocation == VK_NULL_HANDLE`, i.e. not allocated in a
host-visible memory class by this device) returns false with the output
data pointer set to null and the pitches zeroed; that branch contains no
assertion, so release and debug builds alike simply fail the call. -/
theorem C9_theorem (vmaMapOk : Bool) (mappedPtr : Nat) (m : VK.Registry)
    (h : Nat) (d : VK.ResourceData) (hReg : VK.lookup_resource m h = some d)
    (hAlloc : d.allocation = none) :
    VK.map_resource vmaMapOk mappedPtr m h = some ⟨false, none, 0, 0⟩ := by
  simp [VK.map_resource, hReg, hAlloc]

/-- C9 witness: a concrete registered device-local resource (no host
allocation) probed with `map_resource`. -/
theorem C9_witness :
    VK.map_resource true 77 [(5, ⟨true, none, true⟩)] 5 = some ⟨false, none, 0, 0⟩ :=
  C9_theorem true 77 [(5, ⟨true, none, true⟩)] 5 ⟨true, none, true⟩ rfl rfl

/-- Helper: a natural-number or is non-zero when its right operand is. -/
theorem or_ne_zero_right (a b : Nat) (h : b ≠ 0) : a ||| b ≠ 0 := by
  intro h0
  obtain ⟨i, hi⟩ := Nat.ne_zero_implies_bit_true h
  have hb : (a ||| b).testBit i = true := by
    simp [Nat.testBit_or, hi]
  rw [h0] at hb
  simp [Nat.zero_testBit] at hb

/-- Helper: on lockstep attachment tables all of whose views are non-zero,
indices below the type-filtered count succeed with a non-zero view and the
index equal to the count fails with the zero view. -/
theorem vk_get_attachment_spec (ps : List VK.RPAttachment) (fs : List VK.FBAttachment)
    (hlen : ps.length = fs.length) (hnz : ∀ f ∈ fs, f.view ≠ 0) (ty : Nat) :
    (∀ i, i < VK.vk_get_attachment_count ps ty →
      (VK.vk_get_attachment ps fs ty i).1 = true
      ∧ (VK.vk_get_attachment ps fs ty i).2 ≠ 0)
    ∧ VK.vk_get_attachment ps fs ty (VK.vk_get_attachment_count ps ty) = (false, 0) := by
  induction ps generalizing fs with
  | nil =>
    constructor
    · intro i hi
      simp [VK.vk_get_attachment_count] at hi
    · simp [VK.vk_get_attachment, VK.vk_get_attachment_count]
  | cons p ps ih =>
    cases fs with
    | nil => simp at hlen
    | cons f fs =>
      have hlen' : ps.length = fs.length := by simpa using hlen
      have hnz' : ∀ g ∈ fs, g.view ≠ 0 := fun g hg => hnz g (List.mem_cons_of_mem _ hg)
      have hfv : f.view ≠ 0 := hnz f (List.mem_cons_self _ _)
      obtain ⟨ih1, ih2⟩ := ih fs hlen' hnz'
      by_cases hp : (p.formatFlags &&& ty != 0) = true
      · have hcnt : VK.vk_get_attachment_count (p :: ps) ty
            = VK.vk_get_attachment_count ps ty + 1 := by
          simp [VK.vk_get_attachment_count, List.filter_cons, hp]
        constructor
        · intro i hi
          match i with
          | 0 => simp [VK.vk_get_attachment, hp, hfv]
          | j + 1 =>
            have hj : j < VK.vk_get_attachment_count ps ty := by omega
            simpa [VK.vk_get_attachment, hp] using ih1 j hj
        · rw [hcnt]
          simpa [VK.vk_get_attachment, hp] using ih2
      · have hcnt : VK.vk_get_attachment_count (p :: ps) ty
            = VK.vk_get_attachment_count ps ty := by
          simp [VK.vk_get_attachment_count, List.filter_cons, hp]
        constructor
        · intro i hi
          rw [hcnt] at hi
          simpa [VK.vk_get_attachment, hp] using ih1 i hi
        · rw [hcnt]
          simpa [VK.vk_get_attachment, hp] using ih2

/-- Helper: the two attachment tables built from one render-pass description
have equal length. -/
theorem vkDescAttachments_len (aspectOf : Nat → Nat) (rts : List (Nat × Nat))
    (ds dsFmt : Nat) :
    (VK.vkDescAttachments aspectOf rts ds dsFmt).1.length
      = (VK.vkDescAttachments aspectOf rts ds dsFmt).2.length := by
  unfold VK.vkDescAttachments
  by_cases hds : ds ≠ 0 <;> simp [hds]

/-- Helper: every view stored in the framebuffer table built from a
description is non-zero — colors by the loop guard `handle != 0`,
depth-stencil by its branch guard. -/
theorem vkDescAttachments_views_nz (aspectOf : Nat → Nat) (rts : List (Nat × Nat))
    (ds dsFmt : Nat) :
    ∀ f ∈ (VK.vkDescAttachments aspectOf rts ds dsFmt).2, f.view ≠ 0 := by
  intro f hf
  unfold VK.vkDescAttachments at hf
  rcases Decidable.em (ds = 0) with h0 | h0
  · rw [if_neg (not_not_intro h0)] at hf
    obtain ⟨p, hp, hfe⟩ := List.mem_map.mp hf
    rw [← hfe]
    simpa using List.mem_takeWhile_imp hp
  · rw [if_pos h0] at hf
    rcases List.mem_append.mp hf with hf1 | hf1
    · obtain ⟨p, hp, hfe⟩ := List.mem_map.mp hf1
      rw [← hfe]
      simpa using List.mem_takeWhile_imp hp
    · rw [List.mem_singleton.mp hf1]
      exact h0

/-- C5: for attachment tables produced by the Vulkan `create_render_pass`
from any description, `get_attachment`'s index counts only attachments whose
format aspect flags intersect the requested type, in declaration order: if
`get_attachment_count` is `N`, then `get_attachment` at every `i < N`
returns true with a non-zero view, and at `i = N` returns false with the
zero view. -/
theorem C5_theorem (aspectOf : Nat → Nat) (rts : List (Nat × Nat))
    (ds dsFmt ty i : Nat) :
    (i < VK.vk_get_attachment_count (VK.vkDescAttachments aspectOf rts ds dsFmt).1 ty →
      (VK.vk_get_attachment (VK.vkDescAttachments aspectOf rts ds dsFmt).1
          (VK.vkDescAttachments aspectOf rts ds dsFmt).2 ty i).1 = true
      ∧ (VK.vk_get_attachment (VK.vkDescAttachments aspectOf rts ds dsFmt).1
          (VK.vkDescAttachments aspectOf rts ds dsFmt).2 ty i).2 ≠ 0)
    ∧ VK.vk_get_attachment (VK.vkDescAttachments aspectOf rts ds dsFmt).1
        (VK.vkDescAttachments aspectOf rts ds dsFmt).2 ty
        (VK.vk_get_attachment_count (VK.vkDescAttachments aspectOf rts ds dsFmt).1 ty)
        = (false, 0) := by
  obtain ⟨h1, h2⟩ := vk_get_attachment_spec
    (VK.vkDescAttachments aspectOf rts ds dsFmt).1
    (VK.vkDescAttachments aspectOf rts ds dsFmt).2
    (vkDescAttachments_len aspectOf rts ds dsFmt)
    (vkDescAttachments_views_nz aspectOf rts ds dsFmt) ty
  exact ⟨h1 i, h2⟩

/-- C5 witness: a pass with one color attachment (view 5, a color-aspect
format) and a depth-stencil attachment (view 7, a depth-stencil-aspect
format), queried for the color type: the count is 1, index 0 succeeds with
view 5 (non-zero), index 1 fails with the zero view. -/
theorem C5_witness :
    (0 < VK.vk_get_attachment_count
        (VK.vkDescAttachments (fun f => f) [(5, 1)] 7 6).1 1
      ∧ (VK.vk_get_attachment (VK.vkDescAttachments (fun f => f) [(5, 1)] 7 6).1
          (VK.vkDescAttachments (fun f => f) [(5, 1)] 7 6).2 1 0).1 = true
      ∧ (VK.vk_get_attachment (VK.vkDescAttachments (fun f => f) [(5, 1)] 7 6).1
          (VK.vkDescAttachments (fun f => f) [(5, 1)] 7 6).2 1 0).2 ≠ 0)
    ∧ VK.vk_get_attachment (VK.vkDescAttachments (fun f => f) [(5, 1)] 7 6).1
        (VK.vkDescAttachments (fun f => f) [(5, 1)] 7 6).2 1
        (VK.vk_get_attachment_count
          (VK.vkDescAttachments (fun f => f) [(5, 1)] 7 6).1 1) = (false, 0) :=
  ⟨⟨by decide,
    (C5_theorem (fun f => f) [(5, 1)] 7 6 1 0).1 (by decide)⟩,
   (C5_theorem (fun f => f) [(5, 1)] 7 6 1 0).2⟩

/-- Helper: atomicity of the Vulkan `create_render_pass`: success returns
the non-null heap pointer with both side-table entries registered; failure
returns the zero sentinel with the device state exactly as before (the
already-created native render pass destroyed again when the framebuffer
step failed). -/
theorem vk_create_render_pass_atomic (passOk fboOk : Bool) (passId fboId ptr : Nat)
    (aspectOf : Nat → Nat) (rts : List (Nat × Nat)) (ds dsFmt : Nat) (st : VK.RPState)
    (hptr : ptr ≠ 0) :
    ((VK.vk_create_render_pass passOk fboOk passId fboId ptr aspectOf rts ds dsFmt st).1.1 = true →
      (VK.vk_create_render_pass passOk fboOk passId fboId ptr aspectOf rts ds dsFmt st).1.2 ≠ 0
      ∧ (passId, (VK.vkDescAttachments aspectOf rts ds dsFmt).1)
          ∈ (VK.vk_create_render_pass passOk fboOk passId fboId ptr aspectOf rts ds dsFmt st).2.renderPassList
      ∧ (fboId, (VK.vkDescAttachments aspectOf rts ds dsFmt).2)
          ∈ (VK.vk_create_render_pass passOk fboOk passId fboId ptr aspectOf rts ds dsFmt st).2.framebufferList)
    ∧ ((VK.vk_create_render_pass passOk fboOk passId fboId ptr aspectOf rts ds dsFmt st).1.1 = false →
      (VK.vk_create_render_pass passOk fboOk passId fboId ptr aspectOf rts ds dsFmt st).1.2 = 0
      ∧ (VK.vk_create_render_pass passOk fboOk passId fboId ptr aspectOf rts ds dsFmt st).2 = st) := by
  cases passOk with
  | false => simp [VK.vk_create_render_pass]
  | true =>
    cases fboOk with
    | false =>
      constructor
      · intro hs
        simp [VK.vk_create_render_pass] at hs
      · intro _
        refine ⟨by simp [VK.vk_create_render_pass], ?_⟩
        simp [VK.vk_create_render_pass, List.erase_cons_head]
    | true =>
      constructor
      · intro _
        exact ⟨hptr, by simp [VK.vk_create_render_pass],
          by simp [VK.vk_create_render_pass]⟩
      · intro hs
        simp [VK.vk_create_render_pass] at hs

/-- Helper: atomicity of the OpenGL `create_render_pass`: failure returns
the zero sentinel with the generated framebuffer deleted again; success on
the default framebuffer returns the literal zero handle without touching
native state, and success on a framebuffer object returns a non-zero packed
handle with the framebuffer alive. -/
theorem gl_create_render_pass_atomic (complete : Bool) (fboName : Nat)
    (grts : List Nat) (gds : Nat) (gst : OpenGL.GLState) (hfbo : fboName ≠ 0) :
    ((OpenGL.gl_create_render_pass complete fboName grts gds gst).1.1 = false →
      (OpenGL.gl_create_render_pass complete fboName grts gds gst).1.2 = 0
      ∧ (OpenGL.gl_create_render_pass complete fboName grts gds gst).2 = gst)
    ∧ ((OpenGL.gl_create_render_pass complete fboName grts gds gst).1.1 = true →
      (OpenGL.defaultFramebufferDesc grts gds = true →
        (OpenGL.gl_create_render_pass complete fboName grts gds gst).1.2 = 0
        ∧ (OpenGL.gl_create_render_pass complete fboName grts gds gst).2 = gst)
      ∧ (OpenGL.defaultFramebufferDesc grts gds = false →
        (OpenGL.gl_create_render_pass complete fboName grts gds gst).1.2 ≠ 0
        ∧ fboName ∈ (OpenGL.gl_create_render_pass complete fboName grts gds gst).2.aliveFbos)) := by
  by_cases hdef : OpenGL.defaultFramebufferDesc grts gds = true
  · constructor
    · intro hs
      simp [OpenGL.gl_create_render_pass, hdef] at hs
    · intro _
      refine ⟨fun _ => ⟨?_, ?_⟩, fun hc => by rw [hdef] at hc; exact absurd hc (by simp)⟩
      · simp [OpenGL.gl_create_render_pass, hdef, OpenGL.make_render_pass_handle]
      · simp [OpenGL.gl_create_render_pass, hdef]
  · have hdef' : OpenGL.defaultFramebufferDesc grts gds = false := by
      simpa using hdef
    by_cases hval : (((grts.take 8).takeWhile (fun h => h != 0)).all
        (fun h => OpenGL.validAttachTarget (OpenGL.glTag h))
        && (gds == 0 || OpenGL.validAttachTarget (OpenGL.glTag gds))) = true
    · cases complete with
      | true =>
        constructor
        · intro hs
          simp [OpenGL.gl_create_render_pass, hdef', hval] at hs
        · intro _
          refine ⟨fun hc => by rw [hdef'] at hc; exact absurd hc (by simp), fun _ => ⟨?_, ?_⟩⟩
          · simp only [OpenGL.gl_create_render_pass, hdef', hval, Bool.false_eq_true,
              if_false, if_true]
            exact or_ne_zero_right _ _ hfbo
          · simp [OpenGL.gl_create_render_pass, hdef', hval]
      | false =>
        constructor
        · intro _
          refine ⟨by simp [OpenGL.gl_create_render_pass, hdef', hval], ?_⟩
          simp [OpenGL.gl_create_render_pass, hdef', hval, List.erase_cons_head]
        · intro hs
          simp [OpenGL.gl_create_render_pass, hdef', hval] at hs
    · have hval' : (((grts.take 8).takeWhile (fun h => h != 0)).all
          (fun h => OpenGL.validAttachTarget (OpenGL.glTag h))
          && (gds == 0 || OpenGL.validAttachTarget (OpenGL.glTag gds))) = false := by
        simpa using hval
      constructor
      · intro _
        refine ⟨by simp [OpenGL.gl_create_render_pass, hdef', hval'], ?_⟩
        simp [OpenGL.gl_create_render_pass, hdef', hval', List.erase_cons_head]
      · intro hs
        simp [OpenGL.gl_create_render_pass, hdef', hval'] at hs

/-- C2 counterexample: the OpenGL `create_render_pass` called with a
description whose sole render target is a default-framebuffer view (and no
depth-stencil) takes its early branch and fully succeeds — returns true —
yet the handle it writes is `make_render_pass_handle(0)`, the literal zero
the data model assigns to the default back buffer, not a non-zero handle. -/
theorem C2_counterexample :
    (OpenGL.gl_create_render_pass true 7
        [OpenGL.make_resource_view_handle OpenGL.GL_FRAMEBUFFER_DEFAULT OpenGL.GL_BACK 0]
        0 ⟨[]⟩).1 = (true, 0) := by
  decide

/-- C2, amended: `create_render_pass` either fully succeeds — returning
true with the synthesized objects registered, and with a non-zero handle
except for the OpenGL default-framebuffer pass, which is represented by the
literal zero handle — or fully fails, returning false with the zero
sentinel and no partially created native object left behind: Vulkan
destroys the already-created render pass when framebuffer creation fails,
and OpenGL deletes the framebuffer object when an attachment is invalid or
completeness validation fails. -/
theorem C2_theorem (passOk fboOk : Bool) (passId fboId ptr : Nat)
    (aspectOf : Nat → Nat) (rts : List (Nat × Nat)) (ds dsFmt : Nat) (st : VK.RPState)
    (hptr : ptr ≠ 0)
    (complete : Bool) (fboName : Nat) (grts : List Nat) (gds : Nat)
    (gst : OpenGL.GLState) (hfbo : fboName ≠ 0) :
    ((VK.vk_create_render_pass passOk fboOk passId fboId ptr aspectOf rts ds dsFmt st).1.1 = true →
      (VK.vk_create_render_pass passOk fboOk passId fboId ptr aspectOf rts ds dsFmt st).1.2 ≠ 0
      ∧ (passId, (VK.vkDescAttachments aspectOf rts ds dsFmt).1)
          ∈ (VK.vk_create_render_pass passOk fboOk passId fboId ptr aspectOf rts ds dsFmt st).2.renderPassList
      ∧ (fboId, (VK.vkDescAttachments aspectOf rts ds dsFmt).2)
          ∈ (VK.vk_create_render_pass passOk fboOk passId fboId ptr aspectOf rts ds dsFmt st).2.framebufferList)
    ∧ ((VK.vk_create_render_pass passOk fboOk passId fboId ptr aspectOf rts ds dsFmt st).1.1 = false →
      (VK.vk_create_render_pass passOk fboOk passId fboId ptr aspectOf rts ds dsFmt st).1.2 = 0
      ∧ (VK.vk_create_render_pass passOk fboOk passId fboId ptr aspectOf rts ds dsFmt st).2 = st)
    ∧ ((OpenGL.gl_create_render_pass complete fboName grts gds gst).1.1 = false →
      (OpenGL.gl_create_render_pass complete fboName grts gds gst).1.2 = 0
      ∧ (OpenGL.gl_create_render_pass complete fboName grts gds gst).2 = gst)
    ∧ ((OpenGL.gl_create_render_pass complete fboName grts gds gst).1.1 = true →
      (OpenGL.defaultFramebufferDesc grts gds = true →
        (OpenGL.gl_create_render_pass complete fboName grts gds gst).1.2 = 0
        ∧ (OpenGL.gl_create_render_pass complete fboName grts gds gst).2 = gst)
      ∧ (OpenGL.defaultFramebufferDesc grts gds = false →
        (OpenGL.gl_create_render_pass complete fboName grts gds gst).1.2 ≠ 0
        ∧ fboName ∈ (OpenGL.gl_create_render_pass complete fboName grts gds gst).2.aliveFbos)) :=
  ⟨(vk_create_render_pass_atomic passOk fboOk passId fboId ptr aspectOf rts ds dsFmt st hptr).1,
   (vk_create_render_pass_atomic passOk fboOk passId fboId ptr aspectOf rts ds dsFmt st hptr).2,
   (gl_create_render_pass_atomic complete fboName grts gds gst hfbo).1,
   (gl_create_render_pass_atomic complete fboName grts gds gst hfbo).2⟩

/-- C2 witness: a concrete fully-successful Vulkan creation (non-zero
pointer, both side tables populated) and a concrete successful OpenGL
creation over a texture attachment (non-zero packed handle, framebuffer
alive). -/
theorem C2_witness :
    ((VK.vk_create_render_pass true true 1 2 3 (fun f => f) [(5, 1)] 0 0
        ⟨[], [], [], []⟩).1.2 ≠ 0
      ∧ (1, (VK.vkDescAttachments (fun f => f) [(5, 1)] 0 0).1)
          ∈ (VK.vk_create_render_pass true true 1 2 3 (fun f => f) [(5, 1)] 0 0
              ⟨[], [], [], []⟩).2.renderPassList
      ∧ (2, (VK.vkDescAttachments (fun f => f) [(5, 1)] 0 0).2)
          ∈ (VK.vk_create_render_pass true true 1 2 3 (fun f => f) [(5, 1)] 0 0
              ⟨[], [], [], []⟩).2.framebufferList)
    ∧ ((OpenGL.gl_create_render_pass true 7
          [OpenGL.make_resource_view_handle OpenGL.GL_TEXTURE_2D 9 1] 0 ⟨[]⟩).1.2 ≠ 0
      ∧ 7 ∈ (OpenGL.gl_create_render_pass true 7
          [OpenGL.make_resource_view_handle OpenGL.GL_TEXTURE_2D 9 1] 0 ⟨[]⟩).2.aliveFbos) :=
  ⟨(C2_theorem true true 1 2 3 (fun f => f) [(5, 1)] 0 0 ⟨[], [], [], []⟩ (by decide)
      true 7 [OpenGL.make_resource_view_handle OpenGL.GL_TEXTURE_2D 9 1] 0 ⟨[]⟩
      (by decide)).1 rfl,
   ((C2_theorem true true 1 2 3 (fun f => f) [(5, 1)] 0 0 ⟨[], [], [], []⟩ (by decide)
      true 7 [OpenGL.make_resource_view_handle OpenGL.GL_TEXTURE_2D 9 1] 0 ⟨[]⟩
      (by decide)).2.2.2 (by decide)).2 (by decide)⟩

/-- Helper: writing an array slot preserves the array length. -/
theorem length_setAt (l : List Nat) (i v : Nat) :
    (OpenGL.setAt l i v).length = l.length := by
  simp [OpenGL.setAt]

/-- Helper: reading back an in-bounds written slot gives the written value. -/
theorem getAt_setAt_eq (l : List Nat) (i v : Nat) (hi : i < l.length) :
    OpenGL.getAt (OpenGL.setAt l i v) i = v := by
  simp [OpenGL.getAt, OpenGL.setAt, List.getD, List.getElem?_set_self', hi]

/-- Helper: writing one slot leaves every other slot unchanged. -/
theorem getAt_setAt_ne (l : List Nat) (i j v : Nat) (hij : i ≠ j) :
    OpenGL.getAt (OpenGL.setAt l i v) j = OpenGL.getAt l j := by
  simp [OpenGL.getAt, OpenGL.setAt, List.getD, List.getElem?_set_ne hij]

/-- Helper: the single-slot copy step only modifies the destination set. -/
theorem copyStepSingle_other (st : OpenGL.Store) (c : OpenGL.DescCopy) (k h : Nat)
    (hne : h ≠ c.dstSet) : OpenGL.copyStepSingle st c k h = st h := by
  simp [OpenGL.copyStepSingle, OpenGL.storeSet, hne]

/-- Helper: the pair copy step only modifies the destination set. -/
theorem copyStepPair_other (st : OpenGL.Store) (c : OpenGL.DescCopy) (k h : Nat)
    (hne : h ≠ c.dstSet) : OpenGL.copyStepPair st c k h = st h := by
  simp [OpenGL.copyStepPair, OpenGL.storeSet, hne]

/-- Helper: the single-slot copy loop only modifies the destination set. -/
theorem copyLoopSingle_other (st : OpenGL.Store) (c : OpenGL.DescCopy) (n h : Nat)
    (hne : h ≠ c.dstSet) :
    OpenGL.copyLoop OpenGL.copyStepSingle st c n h = st h := by
  induction n with
  | zero => rfl
  | succ m ih =>
    rw [OpenGL.copyLoop, copyStepSingle_other _ _ _ _ hne, ih]

/-- Helper: the pair copy loop only modifies the destination set. -/
theorem copyLoopPair_other (st : OpenGL.Store) (c : OpenGL.DescCopy) (n h : Nat)
    (hne : h ≠ c.dstSet) :
    OpenGL.copyLoop OpenGL.copyStepPair st c n h = st h := by
  induction n with
  | zero => rfl
  | succ m ih =>
    rw [OpenGL.copyLoop, copyStepPair_other _ _ _ _ hne, ih]

/-- Helper: the destination set after a single-slot copy step, when source
and destination are different sets. -/
theorem copyStepSingle_dst (st : OpenGL.Store) (c : OpenGL.DescCopy) (k : Nat) :
    OpenGL.copyStepSingle st c k c.dstSet
      = { st c.dstSet with
          descriptors := OpenGL.setAt (st c.dstSet).descriptors (c.dstBinding + k)
            (OpenGL.getAt (st c.srcSet).descriptors (c.srcBinding + k)) } := by
  simp [OpenGL.copyStepSingle, OpenGL.storeSet]

/-- Helper: the destination set after a pair copy step, when source and
destination are different sets: both slots written from the source's
original values. -/
theorem copyStepPair_dst (st : OpenGL.Store) (c : OpenGL.DescCopy) (k : Nat)
    (hne : c.srcSet ≠ c.dstSet) :
    OpenGL.copyStepPair st c k c.dstSet
      = { st c.dstSet with
          descriptors :=
            OpenGL.setAt
              (OpenGL.setAt (st c.dstSet).descriptors ((c.dstBinding + k) * 2)
                (OpenGL.getAt (st c.srcSet).descriptors ((c.srcBinding + k) * 2)))
              ((c.dstBinding + k) * 2 + 1)
              (OpenGL.getAt (st c.srcSet).descriptors ((c.srcBinding + k) * 2 + 1)) } := by
  simp [OpenGL.copyStepPair, OpenGL.storeSet, hne]

/-- Helper: the single-slot copy loop preserves the destination array's
length. -/
theorem copyLoopSingle_dst_length (st : OpenGL.Store) (c : OpenGL.DescCopy) (n : Nat) :
    ((OpenGL.copyLoop OpenGL.copyStepSingle st c n) c.dstSet).descriptors.length
      = (st c.dstSet).descriptors.length := by
  induction n with
  | zero => rfl
  | succ m ih =>
    rw [OpenGL.copyLoop, copyStepSingle_dst, length_setAt, ih]

/-- Helper: the pair copy loop preserves the destination array's length. -/
theorem copyLoopPair_dst_length (st : OpenGL.Store) (c : OpenGL.DescCopy) (n : Nat)
    (hne : c.srcSet ≠ c.dstSet) :
    ((OpenGL.copyLoop OpenGL.copyStepPair st c n) c.dstSet).descriptors.length
      = (st c.dstSet).descriptors.length := by
  induction n with
  | zero => rfl
  | succ m ih =>
    rw [OpenGL.copyLoop, copyStepPair_dst _ _ _ hne, length_setAt, length_setAt, ih]

/-- Helper: after `n` iterations of the single-slot copy loop between two
different sets, destination bindings below `n` hold the source's original
values. -/
theorem copyLoopSingle_getAt (st : OpenGL.Store) (c : OpenGL.DescCopy)
    (hne : c.srcSet ≠ c.dstSet) (n : Nat)
    (hlen : c.dstBinding + n ≤ (st c.dstSet).descriptors.length) :
    ∀ j, j < n →
      OpenGL.getAt ((OpenGL.copyLoop OpenGL.copyStepSingle st c n) c.dstSet).descriptors
          (c.dstBinding + j)
        = OpenGL.getAt (st c.srcSet).descriptors (c.srcBinding + j) := by
  induction n with
  | zero =>
    intro j hj
    omega
  | succ m ih =>
    intro j hj
    rw [OpenGL.copyLoop, copyStepSingle_dst,
      copyLoopSingle_other st c m c.srcSet hne]
    rcases Nat.lt_or_ge j m with hjm | hjm
    · rw [getAt_setAt_ne _ _ _ _ (by omega)]
      exact ih (by omega) j hjm
    · have hjeq : j = m := by omega
      subst hjeq
      rw [getAt_setAt_eq]
      rw [copyLoopSingle_dst_length]
      omega

/-- Helper: after `n` iterations of the pair copy loop between two
different sets, both slots of destination bindings below `n` hold the
source's original values. -/
theorem copyLoopPair_getAt (st : OpenGL.Store) (c : OpenGL.DescCopy)
    (hne : c.srcSet ≠ c.dstSet) (n : Nat)
    (hlen : (c.dstBinding + n) * 2 ≤ (st c.dstSet).descriptors.length) :
    ∀ j, j < n →
      OpenGL.getAt ((OpenGL.copyLoop OpenGL.copyStepPair st c n) c.dstSet).descriptors
          ((c.dstBinding + j) * 2)
        = OpenGL.getAt (st c.srcSet).descriptors ((c.srcBinding + j) * 2)
      ∧ OpenGL.getAt ((OpenGL.copyLoop OpenGL.copyStepPair st c n) c.dstSet).descriptors
          ((c.dstBinding + j) * 2 + 1)
        = OpenGL.getAt (st c.srcSet).descriptors ((c.srcBinding + j) * 2 + 1) := by
  induction n with
  | zero =>
    intro j hj
    omega
  | succ m ih =>
    intro j hj
    rw [OpenGL.copyLoop, copyStepPair_dst _ _ _ hne,
      copyLoopPair_other st c m c.srcSet hne]
    have hlen' : ((OpenGL.copyLoop OpenGL.copyStepPair st c m) c.dstSet).descriptors.length
        = (st c.dstSet).descriptors.length := copyLoopPair_dst_length st c m hne
    rcases Nat.lt_or_ge j m with hjm | hjm
    · constructor
      · rw [getAt_setAt_ne _ _ _ _ (by omega), getAt_setAt_ne _ _ _ _ (by omega)]
        exact (ih (by omega) j hjm).1
      · rw [getAt_setAt_ne _ _ _ _ (by omega), getAt_setAt_ne _ _ _ _ (by omega)]
        exact (ih (by omega) j hjm).2
    · have hjeq : j = m := by omega
      subst hjeq
      constructor
      · rw [getAt_setAt_ne _ _ _ _ (by omega), getAt_setAt_eq]
        rw [hlen']
        omega
      · rw [getAt_setAt_eq]
        rw [length_setAt, hlen']
        omega

/-- C6: on emulated descriptor sets, after `update_descriptor_sets` with a
single copy of count `k` from set `S1` binding `b` to a different set `S2`
binding `b`, the descriptor values stored at bindings `[b, b+k)` of `S2`
equal the values previously stored at those bindings of `S1` — both the
sampler and the view slot for sampler-with-resource-view sets — and `S1`
itself is unchanged. -/
theorem C6_theorem (st : OpenGL.Store) (s1 s2 b k : Nat) (ty : OpenGL.DescType)
    (hne : s1 ≠ s2)
    (hlen : OpenGL.slotSpan ty (b + k) ≤ (st s2).descriptors.length) :
    (∀ j, j < k →
      OpenGL.slotsOf ty
          ((OpenGL.update_descriptor_sets [] [⟨s1, b, s2, b, k, ty⟩] st) s2).descriptors
          (b + j)
        = OpenGL.slotsOf ty (st s1).descriptors (b + j))
    ∧ (OpenGL.update_descriptor_sets [] [⟨s1, b, s2, b, k, ty⟩] st) s1 = st s1 := by
  cases ty with
  | samplerWithResourceView =>
    simp only [OpenGL.slotSpan, if_true, reduceIte] at hlen
    simp only [OpenGL.update_descriptor_sets, List.foldl, OpenGL.applyCopy]
    refine ⟨?_, copyLoopPair_other st ⟨s1, b, s2, b, k, _⟩ k s1 hne⟩
    intro j hj
    have hmain := copyLoopPair_getAt st
      ⟨s1, b, s2, b, k, OpenGL.DescType.samplerWithResourceView⟩ hne k
      (show (b + k) * 2 ≤ (st s2).descriptors.length by omega) j hj
    simp only at hmain
    simp [OpenGL.slotsOf, hmain.1, hmain.2]
  | sampler =>
    simp only [OpenGL.slotSpan, reduceIte] at hlen
    simp only [OpenGL.update_descriptor_sets, List.foldl, OpenGL.applyCopy]
    refine ⟨?_, copyLoopSingle_other st ⟨s1, b, s2, b, k, _⟩ k s1 hne⟩
    intro j hj
    have hmain := copyLoopSingle_getAt st
      ⟨s1, b, s2, b, k, OpenGL.DescType.sampler⟩ hne k
      (show b + k ≤ (st s2).descriptors.length from hlen) j hj
    simp only at hmain
    simp [OpenGL.slotsOf, hmain]
  | shaderResourceView =>
    simp only [OpenGL.slotSpan, reduceIte] at hlen
    simp only [OpenGL.update_descriptor_sets, List.foldl, OpenGL.applyCopy]
    refine ⟨?_, copyLoopSingle_other st ⟨s1, b, s2, b, k, _⟩ k s1 hne⟩
    intro j hj
    have hmain := copyLoopSingle_getAt st
      ⟨s1, b, s2, b, k, OpenGL.DescType.shaderResourceView⟩ hne k
      (show b + k ≤ (st s2).descriptors.length from hlen) j hj
    simp only at hmain
    simp [OpenGL.slotsOf, hmain]
  | unorderedAccessView =>
    simp only [OpenGL.slotSpan, reduceIte] at hlen
    simp only [OpenGL.update_descriptor_sets, List.foldl, OpenGL.applyCopy]
    refine ⟨?_, copyLoopSingle_other st ⟨s1, b, s2, b, k, _⟩ k s1 hne⟩
    intro j hj
    have hmain := copyLoopSingle_getAt st
      ⟨s1, b, s2, b, k, OpenGL.DescType.unorderedAccessView⟩ hne k
      (show b + k ≤ (st s2).descriptors.length from hlen) j hj
    simp only at hmain
    simp [OpenGL.slotsOf, hmain]
  | constantBuffer =>
    simp only [OpenGL.slotSpan, reduceIte] at hlen
    simp only [OpenGL.update_descriptor_sets, List.foldl, OpenGL.applyCopy]
    refine ⟨?_, copyLoopSingle_other st ⟨s1, b, s2, b, k, _⟩ k s1 hne⟩
    intro j hj
    have hmain := copyLoopSingle_getAt st
      ⟨s1, b, s2, b, k, OpenGL.DescType.constantBuffer⟩ hne k
      (show b + k ≤ (st s2).descriptors.length from hlen) j hj
    simp only at hmain
    simp [OpenGL.slotsOf, hmain]

/-- Concrete two-set store for the C6 witness: set 1 holds the values
10, 20, 30, 40; set 2 is zero-initialized. -/
def C6store : OpenGL.Store := fun h =>
  if h = 1 then ⟨OpenGL.DescType.samplerWithResourceView, [10, 20, 30, 40]⟩
  else ⟨OpenGL.DescType.samplerWithResourceView, [0, 0, 0, 0]⟩

/-- C6 witness: copying two sampler-with-resource-view bindings from set 1
to set 2 moves both slot pairs and leaves set 1 untouched. -/
theorem C6_witness :
    OpenGL.slotsOf OpenGL.DescType.samplerWithResourceView
        ((OpenGL.update_descriptor_sets []
            [⟨1, 0, 2, 0, 2, OpenGL.DescType.samplerWithResourceView⟩] C6store) 2).descriptors
        1
      = [30, 40]
    ∧ (OpenGL.update_descriptor_sets []
        [⟨1, 0, 2, 0, 2, OpenGL.DescType.samplerWithResourceView⟩] C6store) 1
      = ⟨OpenGL.DescType.samplerWithResourceView, [10, 20, 30, 40]⟩ :=
  ⟨(C6_theorem C6store 1 2 0 2 OpenGL.DescType.samplerWithResourceView
      (by decide) (by decide)).1 1 (by decide),
   (C6_theorem C6store 1 2 0 2 OpenGL.DescType.samplerWithResourceView
      (by decide) (by decide)).2⟩

/-- C7: allocating one emulated descriptor set from a layout with a single
sampler-with-resource-view range of count 4 zero-initializes all four
binding pairs; writing binding 2 with a sampler `s` and view `v` via
`update_descriptor_sets` stores exactly `s` and `v` at binding 2 and leaves
bindings 0, 1 and 3 at the zero sentinel pair. -/
theorem C7_theorem (s v : Nat) :
    OpenGL.slotsOf OpenGL.DescType.samplerWithResourceView
        ((OpenGL.update_descriptor_sets
            [⟨1, 2, OpenGL.DescType.samplerWithResourceView, s, v, 0⟩] []
            (fun _ => OpenGL.createDescriptorSet
              OpenGL.DescType.samplerWithResourceView 4)) 1).descriptors 2
      = [s, v]
    ∧ OpenGL.slotsOf OpenGL.DescType.samplerWithResourceView
        ((OpenGL.update_descriptor_sets
            [⟨1, 2, OpenGL.DescType.samplerWithResourceView, s, v, 0⟩] []
            (fun _ => OpenGL.createDescriptorSet
              OpenGL.DescType.samplerWithResourceView 4)) 1).descriptors 0
      = [0, 0]
    ∧ OpenGL.slotsOf OpenGL.DescType.samplerWithResourceView
        ((OpenGL.update_descriptor_sets
            [⟨1, 2, OpenGL.DescType.samplerWithResourceView, s, v, 0⟩] []
            (fun _ => OpenGL.createDescriptorSet
              OpenGL.DescType.samplerWithResourceView 4)) 1).descriptors 1
      = [0, 0]
    ∧ OpenGL.slotsOf OpenGL.DescType.samplerWithResourceView
        ((OpenGL.update_descriptor_sets
            [⟨1, 2, OpenGL.DescType.samplerWithResourceView, s, v, 0⟩] []
            (fun _ => OpenGL.createDescriptorSet
              OpenGL.DescType.samplerWithResourceView 4)) 1).descriptors 3
      = [0, 0] := by
  refine ⟨?_, ?_, ?_, ?_⟩ <;> rfl

/-- C8 counterexample: on a Vulkan device none of whose queues exposes an
immediate command list (vulkan_hooks_device.cpp wraps devices even without
a graphics queue), `create_query_pool` with a successful native
`vkCreateQueryPool` still returns success — yet records no command at all:
the pool is handed to the caller with no query initialized and no reset
issued, refuting the unconditional claim. -/
theorem C8_counterexample :
    VK.vk_create_query_pool true 3 [] 2 = some (3, []) := by
  decide

/-- C8, amended: OpenGL `create_query_pool` hands out every successful pool
with all queries pre-initialized — a timestamp issued for timestamp pools,
one begin/end pair for every other supported type — before returning.
Vulkan `create_query_pool` resets the whole range `[0, count)` on the first
queue exposing an immediate command list (and flushes) before returning the
handle; but when no queue exposes an immediate command list it still
succeeds while issuing no reset at all, leaving the queries
uninitialized. -/
theorem C8_theorem (ty : OpenGL.QueryType) (size : Nat) (pool : List OpenGL.QueryInit)
    (hgl : OpenGL.gl_create_query_pool ty size = some pool)
    (createOk : Bool) (poolId : Nat) (queuesImm : List Bool) (count : Nat)
    (hvk : createOk = true) :
    (∀ q ∈ pool,
      q = (if ty = OpenGL.QueryType.timestamp then OpenGL.QueryInit.timestamped
           else OpenGL.QueryInit.begunEnded))
    ∧ (queuesImm.any id = true →
        VK.vk_create_query_pool createOk poolId queuesImm count
          = some (poolId,
              [VK.QueryOp.cmdResetQueryPool poolId 0 count, VK.QueryOp.flush]))
    ∧ (queuesImm.any id = false →
        VK.vk_create_query_pool createOk poolId queuesImm count
          = some (poolId, [])) := by
  refine ⟨?_, ?_, ?_⟩
  · intro q hq
    unfold OpenGL.gl_create_query_pool at hgl
    by_cases hty : ty = OpenGL.QueryType.pipelineStatistics
    · simp [hty] at hgl
    · rw [if_neg hty] at hgl
      obtain rfl := Option.some.inj hgl
      obtain ⟨a, _, rfl⟩ := List.mem_map.mp hq
      rfl
  · intro himm
    simp [VK.vk_create_query_pool, hvk, himm]
  · intro himm
    simp [VK.vk_create_query_pool, hvk, himm]

/-- C8 witness: an occlusion pool of two queries on the OpenGL backend
(both begun/ended), a Vulkan pool of two queries reset on the immediate
command list of the second queue, and a Vulkan pool created on a device
with no queues, returned with no reset issued. -/
theorem C8_witness :
    OpenGL.QueryInit.begunEnded
        = (if OpenGL.QueryType.occlusion = OpenGL.QueryType.timestamp
           then OpenGL.QueryInit.timestamped else OpenGL.QueryInit.begunEnded)
    ∧ VK.vk_create_query_pool true 3 [false, true] 2
        = some (3, [VK.QueryOp.cmdResetQueryPool 3 0 2, VK.QueryOp.flush])
    ∧ VK.vk_create_query_pool true 4 [] 2 = some (4, []) :=
  ⟨(C8_theorem OpenGL.QueryType.occlusion 2
      [OpenGL.QueryInit.begunEnded, OpenGL.QueryInit.begunEnded] rfl
      true 3 [false, true] 2 rfl).1 OpenGL.QueryInit.begunEnded (by decide),
   (C8_theorem OpenGL.QueryType.occlusion 2
      [OpenGL.QueryInit.begunEnded, OpenGL.QueryInit.begunEnded] rfl
      true 3 [false, true] 2 rfl).2.1 rfl,
   (C8_theorem OpenGL.QueryType.occlusion 2
      [OpenGL.QueryInit.begunEnded, OpenGL.QueryInit.begunEnded] rfl
      true 4 [] 2 rfl).2.2 rfl⟩

/-- Framebuffer-introspection environment with no attachments anywhere and
no default depth buffer. -/
def noDepthEnv : OpenGL.GLEnv :=
  ⟨fun _ _ => OpenGL.GL_NONE, fun _ _ => 0, fun t _ => t, OpenGL.GL_NONE⟩

/-- C10: OpenGL `get_attachment_count` returns the constant 1 for every
attachment type other than color, for every render pass, without looking at
the framebuffer — even though `get_attachment` for the same type can fail
on the same pass: concretely, depth queried on a framebuffer object with no
depth attachment returns false with the zero view, and on the default
framebuffer with no default depth buffer it also returns false with the
zero view, while `get_attachment_count` reports 1 for both. -/
theorem C10_theorem (pass ty : Nat) (hty : ty ≠ 1) :
    OpenGL.gl_get_attachment_count pass ty = 1
    ∧ OpenGL.gl_get_attachment noDepthEnv (OpenGL.make_render_pass_handle 3 1 0) 2 0
        = (false, 0)
    ∧ OpenGL.gl_get_attachment_count (OpenGL.make_render_pass_handle 3 1 0) 2 = 1
    ∧ OpenGL.gl_get_attachment noDepthEnv (OpenGL.make_render_pass_handle 0 0 0) 2 0
        = (false, 0)
    ∧ OpenGL.gl_get_attachment_count (OpenGL.make_render_pass_handle 0 0 0) 2 = 1 :=
  ⟨by simp [OpenGL.gl_get_attachment_count, hty],
   by decide, by decide, by decide, by decide⟩

/-- C10 witness: the non-color count at a concrete pass and type, alongside
the concrete failing `get_attachment` results. -/
theorem C10_witness :
    OpenGL.gl_get_attachment_count 77 6 = 1
    ∧ OpenGL.gl_get_attachment noDepthEnv (OpenGL.make_render_pass_handle 3 1 0) 2 0
        = (false, 0) :=
  ⟨(C10_theorem 77 6 (by decide)).1, (C10_theorem 77 6 (by decide)).2.1⟩
